import Mathlib

/-!
# result-cpp: `Error` and `Result<T, E>` (include/result.hpp)

A shallow embedding of the header `include/result.hpp`.

* `Error` is a plain record of its three members.  `ErrorCode` is `uint32_t`; it is
  modelled as a natural number and the conversion `static_cast<ErrorCode>` is the
  explicit reduction modulo `2^32`.  The borrowed `std::string_view` message is modelled
  by the text it views.
* `std::shared_ptr<acceptable_type>` is a handle into an explicit heap of payload cells:
  `none` is `nullptr`, `some a` is the cell at address `a`.  `std::make_shared` allocates
  a fresh cell.  Cells are never released, which is what every holder of a handle
  observes (a cell lives as long as one handle to it does).
* `Result<T, E>` is the record of its three members `m_body`, `m_error`, `m_is_ok`.
  The type parameter `A` of the model is the member type `acceptable_type`
  (`T` itself, or `void *` when `T` is `void`).
* Operations that can fail return `Except Fault _`: dereferencing an empty handle
  (`*m_body` with `m_body == nullptr`) and `std::optional::value()` on an empty optional.
* The three `static_assert`s of `Result` constrain the instantiation at compile time and
  have no run-time content.  `std::string` and `std::string_view` are both modelled by
  `String`, so `Result<std::string, std::string_view>` is `Result String String`.
-/

namespace ResultCpp

/-! ## Error -/

/-- The code type `typedef uint32_t ErrorCode;` (values are below `2^32`). -/
abbrev ErrorCode := Nat

/-- The conversion `static_cast<ErrorCode>(error_code)` from an integral or enumeration
value: reduction modulo `2^32`. -/
def static_cast_ErrorCode (error_code : Int) : ErrorCode :=
  (error_code % 4294967296).toNat

/-- The members of `class Error`. -/
structure Error where
  m_error_code : ErrorCode
  m_error_message : String
  m_optional_message : Option String
  deriving DecidableEq, Repr

namespace Error

/-- The constructor `Error() = default;` used as `E()`: value-initialisation zeroes the
code, the view is empty and the optional is disengaged. -/
def ctor_default : Error :=
  ⟨0, "", none⟩

/-- The constructor `Error(EC error_code, std::string_view error_message,
std::optional<std::string> optional_message = std::nullopt)`. -/
def ctor (error_code : Int) (error_message : String)
    (optional_message : Option String) : Error :=
  ⟨static_cast_ErrorCode error_code, error_message, optional_message⟩

/-- The copy constructor `Error(const Error &e)`. -/
def ctor_copy (e : Error) : Error :=
  ⟨e.m_error_code, e.m_error_message, e.m_optional_message⟩

/-- The move constructor `Error(Error &&e)`: returns the new object and what is left of
`e`.  The code and the view are copied; the optional string is moved, which leaves an
engaged optional holding a moved-from string (`residue s`, unspecified). -/
def ctor_move (residue : String → String) (e : Error) : Error × Error :=
  (⟨e.m_error_code, e.m_error_message, e.m_optional_message⟩,
   ⟨e.m_error_code, e.m_error_message, e.m_optional_message.map residue⟩)

/-- The getter `ErrorCode error_code() const`. -/
def error_code (e : Error) : ErrorCode :=
  e.m_error_code

/-- The setter `Error &error_code(ErrorCode error_code)`: the updated receiver. -/
def set_error_code (e : Error) (error_code : ErrorCode) : Error :=
  ⟨error_code, e.m_error_message, e.m_optional_message⟩

/-- The getter `std::string_view error_message() const`. -/
def error_message (e : Error) : String :=
  e.m_error_message

/-- The setter `Error &error_message(std::string_view error_message)`. -/
def set_error_message (e : Error) (error_message : String) : Error :=
  ⟨e.m_error_code, error_message, e.m_optional_message⟩

/-- The getter `const std::optional<std::string> &optional_message() const`. -/
def optional_message (e : Error) : Option String :=
  e.m_optional_message

/-- The setter `Error &optional_message(std::optional<std::string> optional_message)`. -/
def set_optional_message (e : Error) (optional_message : Option String) : Error :=
  ⟨e.m_error_code, e.m_error_message, optional_message⟩

/-- The method `Error add_optional_message(std::optional<std::string>) const`.
The pair is (the receiver after the call, the returned `temp`): `temp` is copy-constructed
from the receiver and then its annotation is overwritten. -/
def add_optional_message (e : Error) (optional_message : Option String) : Error × Error :=
  let temp := ctor_copy e
  let temp : Error := ⟨temp.m_error_code, temp.m_error_message, optional_message⟩
  (e, temp)

/-- The method `std::string format() const`: the text streamed into the `stringstream`.
`opmess` is computed by the source and not used. -/
def format (e : Error) : String :=
  let _opmess : String :=
    match e.m_optional_message with
    | some s => s
    | none => ""
  "Error Code: " ++ Nat.repr e.m_error_code
    ++ ", Error Message: " ++ e.m_error_message
    ++ (match e.m_optional_message with
        | some s => ", Optional Message:" ++ s
        | none => "")

/-- The shape of `format()` in the words of the specification:
`"Error Code: {code}, Error Message: {message}"`, with
`", Optional Message:{annotation}"` appended only when an annotation is present. -/
def format_spec (c : Nat) (m : String) (a : Option String) : String :=
  let base := "Error Code: " ++ Nat.repr c ++ ", Error Message: " ++ m
  if a.isSome then base ++ (", Optional Message:" ++ a.getD "") else base

end Error

/-! ## Heap, handles and value-initialisation -/

/-- The two ways an accessor of `Result` can fail: `*m_body` on an empty handle, and
`std::optional::value()` on an empty optional (`std::bad_optional_access`).  `dangling`
is a handle to a cell the heap does not have; no operation of the header creates one. -/
inductive Fault where
  | null_deref
  | bad_optional_access
  | dangling
  deriving DecidableEq, Repr

/-- The payload cells created by `std::make_shared<acceptable_type>`; the address of a
cell is its position. -/
structure Heap (A : Type) where
  cells : List A

/-- A `std::shared_ptr<acceptable_type>`: `none` is `nullptr`. -/
abbrev shared_ptr := Option Nat

/-- The call `std::make_shared<acceptable_type>(v)`: a fresh cell holding `v`. -/
def make_shared {A : Type} (h : Heap A) (v : A) : Heap A × shared_ptr :=
  (⟨h.cells ++ [v]⟩, some h.cells.length)

/-- The expression `*p` for a `std::shared_ptr` `p`. -/
def deref {A : Type} (h : Heap A) : shared_ptr → Except Fault A
  | none => .error .null_deref
  | some a =>
    match h.cells[a]? with
    | some v => .ok v
    | none => .error .dangling

/-- The value `T()` of a value-initialised object (`std::make_shared<T>()`, `E()`). -/
class ValueInit (A : Type) where
  value_init : A

/-- A `void *` value, by its address; `nullptr` is address `0`. -/
structure VoidPtr where
  addr : Nat
  deriving DecidableEq, Repr

instance : ValueInit Int := ⟨0⟩

instance : ValueInit String := ⟨""⟩

instance : ValueInit VoidPtr := ⟨⟨0⟩⟩

instance : ValueInit Error := ⟨Error.ctor_default⟩

/-! ## Result -/

/-- The members of `class Result<T, E>`; `A` is `acceptable_type`.  The default member
initialisers are `nullptr`, `std::nullopt`, `std::nullopt`. -/
structure Result (A : Type) (E : Type) where
  m_body : shared_ptr
  m_error : Option E
  m_is_ok : Option Bool

namespace Result

variable {A E : Type}

/-- The constructor `Result()`. -/
def ctor_default [ValueInit A] (h : Heap A) : Heap A × Result A E :=
  let hp := make_shared h (ValueInit.value_init : A)
  (hp.1, ⟨hp.2, none, some true⟩)

/-- The constructor `explicit Result(acceptable_type &&t)`. -/
def ctor_body (h : Heap A) (t : A) : Heap A × Result A E :=
  let hp := make_shared h t
  (hp.1, ⟨hp.2, none, some true⟩)

/-- The constructor `explicit Result(E &&e)`. -/
def ctor_error (e : E) : Result A E :=
  ⟨none, some e, some false⟩

/-- The copy constructor `Result(const Result &result)`. -/
def ctor_copy (result : Result A E) : Result A E :=
  ⟨result.m_body, result.m_error, result.m_is_ok⟩

/-- The move constructor `Result(Result &&result)`: the new object and what is left of
`result`.  A moved-from handle is empty; a moved-from optional stays engaged and holds
the moved-from error `residue e`; the flag is copied. -/
def ctor_move (residue : E → E) (result : Result A E) : Result A E × Result A E :=
  (⟨result.m_body, result.m_error, result.m_is_ok⟩,
   ⟨none, result.m_error.map residue, result.m_is_ok⟩)

/-- The copy assignment `Result &operator=(const Result &result)`: the new value of the
receiver, whose three members are overwritten. -/
def assign_copy (_self result : Result A E) : Result A E :=
  ⟨result.m_body, result.m_error, result.m_is_ok⟩

/-- The move assignment `Result &operator=(Result &&result)` between two distinct objects:
the new value of the receiver and what is left of `result`. -/
def assign_move (residue : E → E) (_self result : Result A E) : Result A E × Result A E :=
  (⟨result.m_body, result.m_error, result.m_is_ok⟩,
   ⟨none, result.m_error.map residue, result.m_is_ok⟩)

/-- The factory `static Result make_ok()`. -/
def make_ok_default [ValueInit A] (h : Heap A) : Heap A × Result A E :=
  ctor_default h

/-- The factory `static Result make_ok(acceptable_type &&actp)`. -/
def make_ok (h : Heap A) (actp : A) : Heap A × Result A E :=
  ctor_body h actp

/-- The factory `template<class... Args> static Result make_ok(Args &&... args)`;
`construct args` is the constructor call `acceptable_type(args...)`. -/
def make_ok_args {Args : Type} (construct : Args → A) (h : Heap A) (args : Args) :
    Heap A × Result A E :=
  ctor_body h (construct args)

/-- The factory `static Result make_err()`. -/
def make_err_default [ValueInit E] : Result A E :=
  ctor_error (ValueInit.value_init : E)

/-- The factory `static Result make_err(E &&e)`. -/
def make_err (e : E) : Result A E :=
  ctor_error e

/-- The factory `template<class... Args> static Result make_err(Args &&... args)`;
`construct args` is the constructor call `E(args...)`. -/
def make_err_args {Args : Type} (construct : Args → E) (args : Args) : Result A E :=
  ctor_error (construct args)

/-- The accessor `const std::optional<bool> &result_status() const`. -/
def result_status (r : Result A E) : Option Bool :=
  r.m_is_ok

/-- The query `bool is_ok() const`: `m_is_ok.has_value() && m_is_ok.value()`. -/
def is_ok (r : Result A E) : Bool :=
  r.m_is_ok.isSome && r.m_is_ok.getD false

/-- The query `bool is_err() const`: `m_is_ok.has_value() && !m_is_ok.value()`. -/
def is_err (r : Result A E) : Bool :=
  r.m_is_ok.isSome && !(r.m_is_ok.getD true)

/-- The query `bool is_undefined() const`: `!m_is_ok.has_value()`. -/
def is_undefined (r : Result A E) : Bool :=
  !r.m_is_ok.isSome

/-- The accessor `std::shared_ptr<acceptable_type> shared_ok() const`.  The guard
`if (!m_is_ok)` converts the `std::optional<bool>` to `bool`, which is `has_value()`. -/
def shared_ok (r : Result A E) : shared_ptr :=
  if !r.m_is_ok.isSome then none
  else r.m_body

/-- The accessor `std::optional<acceptable_type> ok() const`.  The guard `if (!m_is_ok)`
is `!m_is_ok.has_value()`; past it the body handle is dereferenced. -/
def ok (r : Result A E) (h : Heap A) : Except Fault (Option A) :=
  if !r.m_is_ok.isSome then .ok none
  else (deref h r.m_body).map some

/-- The accessor `const std::optional<E> &error() const`. -/
def error (r : Result A E) : Option E :=
  r.m_error

/-- The accessor `acceptable_type unwrap() const`: `return *m_body;`. -/
def unwrap (r : Result A E) (h : Heap A) : Except Fault A :=
  deref h r.m_body

/-- The accessor `E unwrap_err() const`: `return m_error.value();`. -/
def unwrap_err (r : Result A E) : Except Fault E :=
  match r.m_error with
  | some e => .ok e
  | none => .error .bad_optional_access

end Result

/-! ## Programs over `Result` objects

A client of the header creates `Result` objects and copies, moves and assigns them.
`Op` lists these statements, `step` runs one of them on the heap and the objects created
so far, and `run` runs a straight-line program. -/

/-- One statement of a client; objects are named by their position in creation order. -/
inductive Op (A E : Type) where
  | ctor_default
  | make_ok_default
  | make_ok (actp : A)
  | make_err_default
  | make_err (e : E)
  | ctor_copy (src : Nat)
  | ctor_move (src : Nat)
  | assign_copy (dst src : Nat)
  | assign_move (dst src : Nat)

/-- Whether the statement moves out of an object. -/
def Op.is_move {A E : Type} : Op A E → Bool
  | .ctor_move _ => true
  | .assign_move _ _ => true
  | _ => false

/-- The heap of payload cells and the `Result` objects of a client. -/
structure State (A E : Type) where
  heap : Heap A
  vars : List (Result A E)

/-- The state before the first statement. -/
def State.init {A E : Type} : State A E :=
  ⟨⟨[]⟩, []⟩

/-- Runs one statement.  A statement naming an object that does not exist is skipped.
A move assignment of an object to itself keeps the handle (the standard defines the
assignment of `std::shared_ptr` as a swap with a temporary), move-assigns the engaged
error to itself (`residue`) and keeps the flag. -/
def step {A E : Type} [ValueInit A] [ValueInit E] (residue : E → E) (s : State A E) :
    Op A E → State A E
  | .ctor_default =>
    let hr := (Result.ctor_default s.heap : Heap A × Result A E)
    ⟨hr.1, s.vars ++ [hr.2]⟩
  | .make_ok_default =>
    let hr := (Result.make_ok_default s.heap : Heap A × Result A E)
    ⟨hr.1, s.vars ++ [hr.2]⟩
  | .make_ok actp =>
    let hr := (Result.make_ok s.heap actp : Heap A × Result A E)
    ⟨hr.1, s.vars ++ [hr.2]⟩
  | .make_err_default => ⟨s.heap, s.vars ++ [Result.make_err_default]⟩
  | .make_err e => ⟨s.heap, s.vars ++ [Result.make_err e]⟩
  | .ctor_copy src =>
    match s.vars[src]? with
    | some r => ⟨s.heap, s.vars ++ [Result.ctor_copy r]⟩
    | none => s
  | .ctor_move src =>
    match s.vars[src]? with
    | some r =>
      let dr := Result.ctor_move residue r
      ⟨s.heap, s.vars.set src dr.2 ++ [dr.1]⟩
    | none => s
  | .assign_copy dst src =>
    match s.vars[dst]?, s.vars[src]? with
    | some d, some r => ⟨s.heap, s.vars.set dst (Result.assign_copy d r)⟩
    | _, _ => s
  | .assign_move dst src =>
    match s.vars[dst]?, s.vars[src]? with
    | some d, some r =>
      if dst = src then
        ⟨s.heap, s.vars.set dst ⟨r.m_body, r.m_error.map residue, r.m_is_ok⟩⟩
      else
        let dr := Result.assign_move residue d r
        ⟨s.heap, (s.vars.set src dr.2).set dst dr.1⟩
    | _, _ => s

/-- Runs a straight-line program from a state. -/
def run {A E : Type} [ValueInit A] [ValueInit E] (residue : E → E) (s : State A E)
    (ops : List (Op A E)) : State A E :=
  ops.foldl (step residue) s

/-- The state after the client `ops`, started with no objects. -/
def exec {A E : Type} [ValueInit A] [ValueInit E] (residue : E → E)
    (ops : List (Op A E)) : State A E :=
  run residue State.init ops

/-- The three shapes a `Result` object of a client can have over the heap `h`: a success
holding a live payload cell, a failure holding an error and no cell, and (only when the
client moves out of objects, `moves = true`) a success whose handle was moved away. -/
inductive Shape {A E : Type} (h : Heap A) : Bool → Result A E → Prop where
  | success (moves : Bool) (a : Nat) (v : A) (hv : h.cells[a]? = some v) :
      Shape h moves ⟨some a, none, some true⟩
  | failure (moves : Bool) (e : E) : Shape h moves ⟨none, some e, some false⟩
  | moved_from : Shape h true ⟨none, none, some true⟩

/-- Every object of the state has one of the shapes. -/
def StateOk {A E : Type} (moves : Bool) (s : State A E) : Prop :=
  ∀ r ∈ s.vars, Shape s.heap moves r

/-! ## Texts -/

/-- The constructor `std::string(count, ch)` that `make_ok(6, 'a')` forwards to: the text
grown by `count` appended copies of `ch`. -/
def string_fill : Nat → Char → String
  | 0, _ => ""
  | count + 1, ch => (string_fill count ch).push ch

/-- The constructor call `acceptable_type(std::forward<Args>(args)...)` for a
`std::string` payload and the arguments `(count, ch)`. -/
def construct_string (args : Nat × Char) : String :=
  string_fill args.1 args.2

/-- The literal `format()` streams in front of the annotation. -/
def optional_suffix : String :=
  ", Optional Message:"

/-- The text `pattern` occurs in `text` as a run of consecutive characters. -/
def occurs_in (pattern text : String) : Prop :=
  List.IsInfix pattern.data text.data

instance (pattern text : String) : Decidable (occurs_in pattern text) :=
  inferInstanceAs (Decidable (List.IsInfix pattern.data text.data))

/-- The number a run of decimal digits denotes, read from the left. -/
def decimal_value (digits : List Char) : Nat :=
  digits.foldl (fun acc ch => 10 * acc + (ch.toNat - 48)) 0

/-! ## Lemmas on the heap and the shapes -/

/-- Reading through the handle `std::make_shared` returns gives the stored value. -/
theorem deref_make_shared {A : Type} (h : Heap A) (v : A) :
    deref (make_shared h v).1 (make_shared h v).2 = .ok v := by
  simp [make_shared, deref]

/-- Reading through a handle to an existing cell gives its value. -/
theorem deref_of_cell {A : Type} (h : Heap A) (a : Nat) (v : A)
    (hv : h.cells[a]? = some v) : deref h (some a) = .ok v := by
  simp [deref, hv]

/-- An allocation leaves the existing cells as they are. -/
theorem cell_make_shared {A : Type} (h : Heap A) (w : A) (a : Nat) (v : A)
    (hv : h.cells[a]? = some v) : (make_shared h w).1.cells[a]? = some v := by
  have hlt : a < h.cells.length := by
    by_contra hge
    rw [List.getElem?_eq_none (by omega)] at hv
    cases hv
  simp only [make_shared]
  rw [List.getElem?_append_left hlt]
  exact hv

theorem Shape.grow {A E : Type} {h : Heap A} {moves : Bool} {r : Result A E} (w : A)
    (hr : Shape h moves r) : Shape (make_shared h w).1 moves r := by
  cases hr with
  | success _ a v hv => exact Shape.success _ a v (cell_make_shared h w a v hv)
  | failure _ e => exact Shape.failure _ e
  | moved_from => exact Shape.moved_from

theorem Shape.fresh {A E : Type} (h : Heap A) (moves : Bool) (w : A) :
    Shape (make_shared h w).1 moves
      (⟨(make_shared h w).2, none, some true⟩ : Result A E) := by
  refine Shape.success moves h.cells.length w ?_
  simp [make_shared]

theorem Shape.copy {A E : Type} {h : Heap A} {moves : Bool} {r : Result A E}
    (hr : Shape h moves r) : Shape h moves (⟨r.m_body, r.m_error, r.m_is_ok⟩ : Result A E) := by
  cases hr with
  | success _ a v hv => exact Shape.success _ a v hv
  | failure _ e => exact Shape.failure _ e
  | moved_from => exact Shape.moved_from

theorem Shape.left_over {A E : Type} {h : Heap A} {r : Result A E} (residue : E → E)
    (hr : Shape h true r) :
    Shape h true (⟨none, r.m_error.map residue, r.m_is_ok⟩ : Result A E) := by
  cases hr with
  | success _ a v hv => exact Shape.moved_from
  | failure _ e => exact Shape.failure _ (residue e)
  | moved_from => exact Shape.moved_from

theorem Shape.self_moved {A E : Type} {h : Heap A} {r : Result A E} (residue : E → E)
    (hr : Shape h true r) :
    Shape h true (⟨r.m_body, r.m_error.map residue, r.m_is_ok⟩ : Result A E) := by
  cases hr with
  | success _ a v hv => exact Shape.success _ a v hv
  | failure _ e => exact Shape.failure _ (residue e)
  | moved_from => exact Shape.moved_from

theorem StateOk.push {A E : Type} {moves : Bool} {h : Heap A} {vars : List (Result A E)}
    {r : Result A E} (hs : ∀ x ∈ vars, Shape h moves x) (hr : Shape h moves r) :
    StateOk moves (⟨h, vars ++ [r]⟩ : State A E) := by
  intro x hx
  rcases List.mem_append.mp hx with hx | hx
  · exact hs x hx
  · rw [List.mem_singleton.mp hx]
    exact hr

theorem StateOk.put {A E : Type} {moves : Bool} {h : Heap A} {vars : List (Result A E)}
    {r : Result A E} (i : Nat) (hs : ∀ x ∈ vars, Shape h moves x) (hr : Shape h moves r) :
    ∀ x ∈ vars.set i r, Shape h moves x := by
  intro x hx
  rcases List.mem_or_eq_of_mem_set hx with hx | hx
  · exact hs x hx
  · rw [hx]
    exact hr

theorem mem_of_lookup {α : Type} {l : List α} {i : Nat} {x : α} (h : l[i]? = some x) :
    x ∈ l := by
  rcases List.getElem?_eq_some.mp h with ⟨hi, hx⟩
  rw [← hx]
  exact List.getElem_mem hi

/-! ## The shapes are kept by every statement -/

/-- One statement keeps the shapes; a statement that moves needs `moves = true`. -/
theorem step_ok {A E : Type} [ValueInit A] [ValueInit E] (residue : E → E) (moves : Bool)
    (s : State A E) (op : Op A E) (hop : op.is_move = true → moves = true)
    (hs : StateOk moves s) : StateOk moves (step residue s op) := by
  cases op with
  | ctor_default =>
    exact StateOk.push (fun x hx => (hs x hx).grow _) (Shape.fresh _ _ _)
  | make_ok_default =>
    exact StateOk.push (fun x hx => (hs x hx).grow _) (Shape.fresh _ _ _)
  | make_ok actp =>
    exact StateOk.push (fun x hx => (hs x hx).grow _) (Shape.fresh _ _ _)
  | make_err_default => exact StateOk.push hs (Shape.failure _ _)
  | make_err e => exact StateOk.push hs (Shape.failure _ _)
  | ctor_copy src =>
    simp only [step]
    cases hsrc : s.vars[src]? with
    | none => exact hs
    | some r => exact StateOk.push hs (hs r (mem_of_lookup hsrc)).copy
  | ctor_move src =>
    have hm : moves = true := hop rfl
    subst hm
    simp only [step]
    cases hsrc : s.vars[src]? with
    | none => exact hs
    | some r =>
      have hr := hs r (mem_of_lookup hsrc)
      exact StateOk.push (StateOk.put src hs (hr.left_over residue)) hr.copy
  | assign_copy dst src =>
    simp only [step]
    cases hdst : s.vars[dst]? with
    | none => exact hs
    | some d =>
      cases hsrc : s.vars[src]? with
      | none => exact hs
      | some r => exact StateOk.put dst hs (hs r (mem_of_lookup hsrc)).copy
  | assign_move dst src =>
    have hm : moves = true := hop rfl
    subst hm
    simp only [step]
    cases hdst : s.vars[dst]? with
    | none => exact hs
    | some d =>
      cases hsrc : s.vars[src]? with
      | none => exact hs
      | some r =>
        have hr := hs r (mem_of_lookup hsrc)
        by_cases hself : dst = src
        · simp only [hself, if_true]
          exact StateOk.put src hs (hr.self_moved residue)
        · simp only [hself, if_false]
          exact StateOk.put dst (StateOk.put src hs (hr.left_over residue)) hr.copy

/-- A straight-line program keeps the shapes. -/
theorem run_ok {A E : Type} [ValueInit A] [ValueInit E] (residue : E → E) (moves : Bool)
    (ops : List (Op A E)) :
    ∀ s : State A E, (∀ op ∈ ops, op.is_move = true → moves = true) →
      StateOk moves s → StateOk moves (run residue s ops) := by
  induction ops with
  | nil => intro s _ hs; exact hs
  | cons op rest ih =>
    intro s hops hs
    exact ih (step residue s op) (fun o ho => hops o (List.mem_cons_of_mem _ ho))
      (step_ok residue moves s op (hops op (List.mem_cons_self _ _)) hs)

/-- Every object of every client has one of the three shapes. -/
theorem exec_ok {A E : Type} [ValueInit A] [ValueInit E] (residue : E → E)
    (ops : List (Op A E)) : StateOk true (exec residue ops) :=
  run_ok residue true ops State.init (fun _ _ _ => rfl) (fun _ hr => by cases hr)

/-- Every object of a client without moves is a success with a live cell or a failure. -/
theorem exec_ok_of_no_move {A E : Type} [ValueInit A] [ValueInit E] (residue : E → E)
    (ops : List (Op A E)) (hops : ops.all (fun op => !op.is_move) = true) :
    StateOk false (exec residue ops) := by
  refine run_ok residue false ops State.init ?_ (fun _ hr => by cases hr)
  intro op hop hmove
  have := List.all_eq_true.mp hops op hop
  simp [hmove] at this

/-! ## Contracts of the factories and accessors -/

/-- C1: for every payload `v` and every heap, `r = make_ok(v)` has `is_ok() == true`,
`is_err() == false`, `ok()` returns the present optional holding `v`, and `unwrap()`
returns `v`. -/
theorem make_ok_observations {A E : Type} (h : Heap A) (v : A) :
    (Result.make_ok h v : Heap A × Result A E).2.is_ok = true
    ∧ (Result.make_ok h v : Heap A × Result A E).2.is_err = false
    ∧ (Result.make_ok h v : Heap A × Result A E).2.ok
        (Result.make_ok h v : Heap A × Result A E).1 = .ok (some v)
    ∧ (Result.make_ok h v : Heap A × Result A E).2.unwrap
        (Result.make_ok h v : Heap A × Result A E).1 = .ok v := by
  refine ⟨rfl, rfl, ?_, ?_⟩
  · simp only [Result.make_ok, Result.ctor_body, Result.ok]
    rw [deref_make_shared]
    rfl
  · simp only [Result.make_ok, Result.ctor_body, Result.unwrap]
    rw [deref_make_shared]

/-- C2: for every error value `e`, `r = make_err(e)` has `is_err() == true`,
`is_ok() == false`, `error()` is present and equals `e`, and `unwrap_err()` returns `e`;
when `E` is `Error` the stored and unwrapped errors format as `e` does, also when `e`
reaches the constructor through the forwarding overload (a copy of an lvalue). -/
theorem make_err_observations :
    (∀ (A E : Type) (e : E),
      (Result.make_err e : Result A E).is_err = true
      ∧ (Result.make_err e : Result A E).is_ok = false
      ∧ (Result.make_err e : Result A E).error = some e
      ∧ (Result.make_err e : Result A E).unwrap_err = .ok e)
    ∧ (∀ (A : Type) (e : Error),
      (Result.make_err e : Result A Error).error.map Error.format = some e.format
      ∧ (Result.make_err e : Result A Error).unwrap_err.map Error.format = .ok e.format
      ∧ (Result.make_err_args Error.ctor_copy e : Result A Error).unwrap_err.map Error.format
          = .ok e.format)
    ∧ (Result.make_err "string_view error message!" : Result String String).unwrap_err
        = .ok "string_view error message!" := by
  refine ⟨fun A E e => ⟨rfl, rfl, rfl, rfl⟩, fun A e => ⟨rfl, rfl, rfl⟩, rfl⟩

/-- C3 (the code at the failing input): on the failure result
`Result<int>::make_err(Error(10001, "An Error Message!"))` the accessor `ok()` passes its
guard and dereferences the empty body handle, instead of returning an absent optional;
on a result whose flag is unset it does return the absent optional. -/
theorem ok_of_make_err_dereferences_null :
    (Result.make_err (Error.ctor 10001 "An Error Message!" none) : Result Int Error).ok ⟨[]⟩
      = .error .null_deref
    ∧ (Result.make_err (Error.ctor 10001 "An Error Message!" none) : Result Int Error).is_ok
      = false
    ∧ (∀ (A E : Type) (h : Heap A) (e : E),
      (Result.make_err e : Result A E).ok h = .error .null_deref)
    ∧ (⟨none, none, none⟩ : Result Int Error).ok ⟨[]⟩ = .ok none :=
  ⟨rfl, rfl, fun _ _ _ _ => rfl, rfl⟩

/-- C4: `format()` is exactly `"Error Code: " + decimal(code) + ", Error Message: " +
message`, followed by `", Optional Message:" + annotation` when an annotation is present
and by nothing when it is absent; `Error(10001, "An Error Message!")` and
`Error(10002, "An Error Message!", "Opt!")` format to the two texts of the scenarios. -/
theorem format_exact :
    (∀ e : Error,
      e.format = Error.format_spec e.error_code e.error_message e.optional_message)
    ∧ (∀ (c : ErrorCode) (m : String),
      (Error.mk c m none).format = "Error Code: " ++ Nat.repr c ++ ", Error Message: " ++ m)
    ∧ (∀ (c : ErrorCode) (m a : String),
      (Error.mk c m (some a)).format
        = "Error Code: " ++ Nat.repr c ++ ", Error Message: " ++ m
            ++ ", Optional Message:" ++ a)
    ∧ (Error.ctor 10001 "An Error Message!" none).format
        = "Error Code: 10001, Error Message: An Error Message!"
    ∧ (Error.ctor 10002 "An Error Message!" (some "Opt!")).format
        = "Error Code: 10002, Error Message: An Error Message!, Optional Message:Opt!" := by
  refine ⟨?_, ?_, ?_, by decide, by decide⟩
  · intro e
    rcases e with ⟨c, m, a⟩
    cases a with
    | none => simp [Error.format, Error.format_spec, Error.error_code, Error.error_message,
        Error.optional_message]
    | some a => simp [Error.format, Error.format_spec, Error.error_code, Error.error_message,
        Error.optional_message, String.append_assoc]
  · intro c m
    simp [Error.format]
  · intro c m a
    simp [Error.format, String.append_assoc]

/-- C5: `e.add_optional_message(a)` returns an error with the code and message of `e`
and with annotation exactly `a` (absent when `a` is absent), and leaves `e` as it was:
same code, message, annotation and `format()`. -/
theorem add_optional_message_frame (e : Error) (a : Option String) :
    (e.add_optional_message a).2.error_code = e.error_code
    ∧ (e.add_optional_message a).2.error_message = e.error_message
    ∧ (e.add_optional_message a).2.optional_message = a
    ∧ (e.add_optional_message a).1 = e
    ∧ (e.add_optional_message a).1.error_code = e.error_code
    ∧ (e.add_optional_message a).1.error_message = e.error_message
    ∧ (e.add_optional_message a).1.optional_message = e.optional_message
    ∧ (e.add_optional_message a).1.format = e.format :=
  ⟨rfl, rfl, rfl, rfl, rfl, rfl, rfl, rfl⟩

/-- C6: a default-constructed `Result<T,E>()` and `make_ok()` are in the success state
(`is_ok()` true, `is_err()` false, `is_undefined()` false), hold no error, and `ok()` is
present and equals the value-initialised payload: `0` for `int`, the empty string for
`std::string`, and the null-pointer placeholder when `T` is `void`. -/
theorem default_is_success :
    (∀ (A E : Type) [ValueInit A] (h : Heap A),
      (Result.ctor_default h : Heap A × Result A E).2.is_ok = true
      ∧ (Result.ctor_default h : Heap A × Result A E).2.is_err = false
      ∧ (Result.ctor_default h : Heap A × Result A E).2.is_undefined = false
      ∧ (Result.ctor_default h : Heap A × Result A E).2.error = none
      ∧ (Result.ctor_default h : Heap A × Result A E).2.ok
          (Result.ctor_default h : Heap A × Result A E).1
          = .ok (some (ValueInit.value_init : A))
      ∧ (Result.make_ok_default h : Heap A × Result A E) = Result.ctor_default h)
    ∧ (∀ (E : Type) (h : Heap Int),
      (Result.make_ok_default h : Heap Int × Result Int E).2.ok
        (Result.make_ok_default h : Heap Int × Result Int E).1 = .ok (some 0))
    ∧ (∀ (E : Type) (h : Heap String),
      (Result.make_ok_default h : Heap String × Result String E).2.ok
        (Result.make_ok_default h : Heap String × Result String E).1 = .ok (some ""))
    ∧ (∀ (E : Type) (h : Heap VoidPtr),
      (Result.make_ok_default h : Heap VoidPtr × Result VoidPtr E).2.ok
        (Result.make_ok_default h : Heap VoidPtr × Result VoidPtr E).1
        = .ok (some ⟨0⟩)) := by
  have key : ∀ (A E : Type) [ValueInit A] (h : Heap A),
      (Result.ctor_default h : Heap A × Result A E).2.ok
          (Result.ctor_default h : Heap A × Result A E).1
          = .ok (some (ValueInit.value_init : A)) := by
    intro A E _ h
    simp only [Result.ctor_default, Result.ok]
    rw [deref_make_shared]
    rfl
  exact ⟨fun A E _ h => ⟨rfl, rfl, rfl, rfl, key A E h, rfl⟩,
    fun E h => key Int E h, fun E h => key String E h, fun E h => key VoidPtr E h⟩

/-- C7: the undefined state is unreachable: in every client built from the default
constructor, the `make_ok` / `make_err` factories, copy and move construction and copy
and move assignment, every object has `is_undefined() == false`. -/
theorem undefined_unreachable {A E : Type} [ValueInit A] [ValueInit E] (residue : E → E)
    (ops : List (Op A E)) (i : Nat) (r : Result A E)
    (hr : (exec residue ops).vars[i]? = some r) : r.is_undefined = false := by
  have hshape := exec_ok residue ops r (mem_of_lookup hr)
  cases hshape <;> rfl

/-- A client that moves out of two objects: the object left behind by the move assignment
still has an engaged flag. -/
theorem undefined_unreachable_witness :
    (exec id [Op.make_ok 12138, Op.make_err "e", Op.ctor_move 0, Op.assign_move 1 2]
        : State Int String).vars[2]? = some ⟨none, none, some true⟩
    ∧ (⟨none, none, some true⟩ : Result Int String).is_undefined = false :=
  ⟨rfl, undefined_unreachable id
    [Op.make_ok 12138, Op.make_err "e", Op.ctor_move 0, Op.assign_move 1 2] 2 _ rfl⟩

/-- C8: for every `Result`, `is_ok()` holds iff the status is success, `is_err()` iff it is
failure, `is_undefined()` iff it is undefined, so exactly one of the three is true; both
`is_ok()` and `is_err()` are false when undefined and they are never both true. -/
theorem status_queries_exclusive {A E : Type} (r : Result A E) :
    (r.is_ok = true ↔ r.result_status = some true)
    ∧ (r.is_err = true ↔ r.result_status = some false)
    ∧ (r.is_undefined = true ↔ r.result_status = none)
    ∧ ((r.is_ok = true ∧ r.is_err = false ∧ r.is_undefined = false)
        ∨ (r.is_ok = false ∧ r.is_err = true ∧ r.is_undefined = false)
        ∨ (r.is_ok = false ∧ r.is_err = false ∧ r.is_undefined = true))
    ∧ ((r.is_ok && r.is_err) = false)
    ∧ ((⟨r.m_body, r.m_error, none⟩ : Result A E).is_ok = false
        ∧ (⟨r.m_body, r.m_error, none⟩ : Result A E).is_err = false) := by
  rcases r with ⟨b, e, st⟩
  rcases st with _ | _ | _ <;>
    simp [Result.is_ok, Result.is_err, Result.is_undefined, Result.result_status]

/-- C9: for every object `r` of a client that uses the default constructor, the factories
and copies (construction and assignment): if `r` is in the success state, `shared_ok()`
is a non-empty handle whose payload is the value `ok()` returns; if `r` is not in the
success state, `shared_ok()` is the empty handle. -/
theorem shared_ok_handle {A E : Type} [ValueInit A] [ValueInit E] (residue : E → E)
    (ops : List (Op A E)) (hops : ops.all (fun op => !op.is_move) = true)
    (i : Nat) (r : Result A E) (hr : (exec residue ops).vars[i]? = some r) :
    (r.is_ok = true →
      ∃ a v, r.shared_ok = some a
        ∧ deref (exec residue ops).heap r.shared_ok = .ok v
        ∧ r.ok (exec residue ops).heap = .ok (some v))
    ∧ (r.is_ok = false → r.shared_ok = none) := by
  have hshape := exec_ok_of_no_move residue ops hops r (mem_of_lookup hr)
  cases hshape with
  | success _ a v hv =>
    refine ⟨fun _ => ⟨a, v, rfl, ?_, ?_⟩, fun hne => by cases hne⟩
    · exact deref_of_cell _ a v hv
    · simp only [Result.ok]
      rw [deref_of_cell _ a v hv]
      rfl
  | failure _ e => exact ⟨fun hok => (by cases hok), fun _ => rfl⟩

/-- A client that copies a success over a failure: the assigned object shares the cell of
the source and `ok()` reads the payload through it. -/
theorem shared_ok_handle_witness :
    ([Op.make_ok "123456", Op.make_err "e", Op.ctor_copy 0, Op.assign_copy 1 0]
        : List (Op String String)).all (fun op => !op.is_move) = true
    ∧ (exec id [Op.make_ok "123456", Op.make_err "e", Op.ctor_copy 0, Op.assign_copy 1 0]
        : State String String).vars[1]? = some ⟨some 0, none, some true⟩
    ∧ ((⟨some 0, none, some true⟩ : Result String String).is_ok = true →
      ∃ a v, (⟨some 0, none, some true⟩ : Result String String).shared_ok = some a
        ∧ deref (exec id
            [Op.make_ok "123456", Op.make_err "e", Op.ctor_copy 0, Op.assign_copy 1 0]
            : State String String).heap
            (⟨some 0, none, some true⟩ : Result String String).shared_ok = .ok v
        ∧ (⟨some 0, none, some true⟩ : Result String String).ok (exec id
            [Op.make_ok "123456", Op.make_err "e", Op.ctor_copy 0, Op.assign_copy 1 0]
            : State String String).heap = .ok (some v)) :=
  ⟨rfl, rfl, (shared_ok_handle id
    [Op.make_ok "123456", Op.make_err "e", Op.ctor_copy 0, Op.assign_copy 1 0] rfl 1 _ rfl).1⟩

/-- C10: the unchecked accessors fail on a precondition violation and succeed otherwise.
On `make_err(e)`, `unwrap()` does not return a payload (it dereferences the empty handle)
and `unwrap_err()` returns `e`; on `make_ok(v)`, `unwrap_err()` does not return an error
(`std::bad_optional_access`) and `unwrap()` returns `v`.  The same holds for every object
of a client: on a failure object `unwrap()` fails and `unwrap_err()` returns its error, on
a success object `unwrap_err()` fails, and `unwrap()` returns the payload of every success
object of a client that does not move out of objects. -/
theorem unchecked_accessors {A E : Type} [ValueInit A] [ValueInit E] :
    (∀ (h : Heap A) (e : E),
      (Result.make_err e : Result A E).unwrap h = .error .null_deref
      ∧ (Result.make_err e : Result A E).unwrap_err = .ok e)
    ∧ (∀ (h : Heap A) (v : A),
      (Result.make_ok h v : Heap A × Result A E).2.unwrap_err = .error .bad_optional_access
      ∧ (Result.make_ok h v : Heap A × Result A E).2.unwrap
          (Result.make_ok h v : Heap A × Result A E).1 = .ok v)
    ∧ (∀ (residue : E → E) (ops : List (Op A E)) (i : Nat) (r : Result A E),
      (exec residue ops).vars[i]? = some r →
        (r.is_err = true →
          r.unwrap (exec residue ops).heap = .error .null_deref
          ∧ ∃ e, r.error = some e ∧ r.unwrap_err = .ok e)
        ∧ (r.is_ok = true →
          r.unwrap_err = .error .bad_optional_access
          ∧ (ops.all (fun op => !op.is_move) = true →
              ∃ v, r.unwrap (exec residue ops).heap = .ok v
                ∧ r.ok (exec residue ops).heap = .ok (some v)))) := by
  refine ⟨fun h e => ⟨rfl, rfl⟩, fun h v => ⟨rfl, ?_⟩, ?_⟩
  · simp only [Result.make_ok, Result.ctor_body, Result.unwrap]
    rw [deref_make_shared]
  · intro residue ops i r hr
    have hshape := exec_ok residue ops r (mem_of_lookup hr)
    have hintact := fun hops => exec_ok_of_no_move residue ops hops r (mem_of_lookup hr)
    cases hshape with
    | success _ a v hv =>
      refine ⟨fun herr => (by cases herr), fun _ => ⟨rfl, fun _ => ⟨v, ?_, ?_⟩⟩⟩
      · exact deref_of_cell _ a v hv
      · simp only [Result.ok]
        rw [deref_of_cell _ a v hv]
        rfl
    | failure _ e =>
      exact ⟨fun _ => ⟨rfl, e, rfl, rfl⟩, fun hok => by cases hok⟩
    | moved_from =>
      refine ⟨fun herr => (by cases herr), fun _ => ⟨rfl, fun hops => ?_⟩⟩
      cases hintact hops

/-- A client that copies a failure: on the copy `unwrap()` dereferences the empty handle
and `unwrap_err()` returns the stored error. -/
theorem unchecked_accessors_witness :
    (exec id [Op.make_ok 12138, Op.make_err "e", Op.ctor_copy 1]
        : State Int String).vars[2]? = some ⟨none, some "e", some false⟩
    ∧ (⟨none, some "e", some false⟩ : Result Int String).is_err = true
    ∧ ((⟨none, some "e", some false⟩ : Result Int String).unwrap
          (exec id [Op.make_ok 12138, Op.make_err "e", Op.ctor_copy 1]
            : State Int String).heap = .error .null_deref
        ∧ ∃ e, (⟨none, some "e", some false⟩ : Result Int String).error = some e
          ∧ (⟨none, some "e", some false⟩ : Result Int String).unwrap_err = .ok e) :=
  ⟨rfl, rfl, ((@unchecked_accessors Int String _ _).2.2 id
    [Op.make_ok 12138, Op.make_err "e", Op.ctor_copy 1] 2 _ rfl).1 rfl⟩

/-! ## Body, error and status; copies -/

/-- C11: exactly one of body and error is populated, the one the status names.  For every
object `r` of a client that uses the default constructor, the factories, copy construction
and copy assignment: `is_ok()` iff the body handle is non-empty iff `error()` is absent,
and `is_err()` iff `error()` is present iff the body handle is empty.  `error()` is absent
on every success object, also in clients that move. -/
theorem body_xor_error {A E : Type} [ValueInit A] [ValueInit E] (residue : E → E)
    (ops : List (Op A E)) (i : Nat) (r : Result A E)
    (hr : (exec residue ops).vars[i]? = some r) :
    (r.is_ok = true → r.error = none)
    ∧ (ops.all (fun op => !op.is_move) = true →
        (r.is_ok = true ↔ r.m_body.isSome = true)
        ∧ (r.m_body.isSome = true ↔ r.error = none)
        ∧ (r.is_err = true ↔ r.error.isSome = true)
        ∧ (r.error.isSome = true ↔ r.m_body = none)
        ∧ (r.is_ok = true → r.shared_ok = r.m_body
            ∧ ∃ v, deref (exec residue ops).heap r.m_body = .ok v)) := by
  have hshape := exec_ok residue ops r (mem_of_lookup hr)
  have hintact := fun hops => exec_ok_of_no_move residue ops hops r (mem_of_lookup hr)
  refine ⟨fun hok => ?_, fun hops => ?_⟩
  · cases hshape with
    | success _ a v hv => rfl
    | failure _ e => cases hok
    | moved_from => rfl
  · cases hintact hops with
    | success _ a v hv =>
      simp only [Result.is_ok, Result.is_err, Result.error, Result.shared_ok]
      refine ⟨by simp, by simp, by simp, by simp, fun _ => ⟨by simp, v, ?_⟩⟩
      exact deref_of_cell _ a v hv
    | failure _ e =>
      simp [Result.is_ok, Result.is_err, Result.error]

/-- A client that copies a failure over a success: the assigned object holds the error and
no body, and is a failure. -/
theorem body_xor_error_witness :
    (exec id [Op.make_ok 12138, Op.make_err "e", Op.assign_copy 0 1]
        : State Int String).vars[0]? = some ⟨none, some "e", some false⟩
    ∧ ([Op.make_ok 12138, Op.make_err "e", Op.assign_copy 0 1]
        : List (Op Int String)).all (fun op => !op.is_move) = true
    ∧ ((⟨none, some "e", some false⟩ : Result Int String).is_err = true
        ↔ (⟨none, some "e", some false⟩ : Result Int String).error.isSome = true)
    ∧ ((⟨none, some "e", some false⟩ : Result Int String).error.isSome = true
        ↔ (⟨none, some "e", some false⟩ : Result Int String).m_body = none) :=
  ⟨rfl, rfl,
    ((body_xor_error id [Op.make_ok 12138, Op.make_err "e", Op.assign_copy 0 1] 0 _ rfl).2
      rfl).2.2.1,
    ((body_xor_error id [Op.make_ok 12138, Op.make_err "e", Op.assign_copy 0 1] 0 _ rfl).2
      rfl).2.2.2.1⟩

/-- The object appended last is found at the old length. -/
theorem lookup_push {α : Type} (l : List α) (x : α) : (l ++ [x])[l.length]? = some x := by
  simp

/-- Appending an object leaves the earlier ones in place. -/
theorem lookup_push_old {α : Type} (l : List α) (x y : α) (i : Nat) (h : l[i]? = some y) :
    (l ++ [x])[i]? = some y := by
  have hlt : i < l.length := by
    by_contra hge
    rw [List.getElem?_eq_none (by omega)] at h
    cases h
  rw [List.getElem?_append_left hlt]
  exact h

/-- Overwriting an existing object stores the new value there. -/
theorem lookup_set_same {α : Type} (l : List α) (x y : α) (i : Nat) (h : l[i]? = some y) :
    (l.set i x)[i]? = some x := by
  have hlt : i < l.length := by
    by_contra hge
    rw [List.getElem?_eq_none (by omega)] at h
    cases h
  simp [List.getElem?_set, hlt]

/-- Overwriting an object leaves the others in place. -/
theorem lookup_set_other {α : Type} (l : List α) (x : α) (i j : Nat) (h : i ≠ j) :
    (l.set i x)[j]? = l[j]? := by
  simp [List.getElem?_set, h]

/-- C12: copying a `Result` (copy construction, copy assignment) yields an object with the
same status and an equal error as the source whose `shared_ok()` is the very same handle
as the source's (no cell is allocated, the heap is as before); the source is unchanged. -/
theorem copy_shares_payload {A E : Type} [ValueInit A] [ValueInit E] (residue : E → E)
    (s : State A E) (src : Nat) (r : Result A E) (hr : s.vars[src]? = some r) :
    (∃ c, (step residue s (.ctor_copy src)).vars[s.vars.length]? = some c
        ∧ c.result_status = r.result_status ∧ c.is_ok = r.is_ok ∧ c.is_err = r.is_err
        ∧ c.error = r.error ∧ c.shared_ok = r.shared_ok)
    ∧ (step residue s (.ctor_copy src)).vars[src]? = some r
    ∧ (step residue s (.ctor_copy src)).heap.cells = s.heap.cells
    ∧ (∀ (dst : Nat) (d : Result A E), s.vars[dst]? = some d →
        (∃ c, (step residue s (.assign_copy dst src)).vars[dst]? = some c
          ∧ c.result_status = r.result_status ∧ c.is_ok = r.is_ok ∧ c.is_err = r.is_err
          ∧ c.error = r.error ∧ c.shared_ok = r.shared_ok)
        ∧ (step residue s (.assign_copy dst src)).vars[src]? = some r
        ∧ (step residue s (.assign_copy dst src)).heap.cells = s.heap.cells) := by
  refine ⟨?_, ?_, ?_, ?_⟩
  · refine ⟨Result.ctor_copy r, ?_, rfl, rfl, rfl, rfl, rfl⟩
    simp only [step, hr]
    exact lookup_push _ _
  · simp only [step, hr]
    exact lookup_push_old _ _ _ _ hr
  · simp only [step, hr]
  · intro dst d hd
    refine ⟨⟨Result.assign_copy d r, ?_, rfl, rfl, rfl, rfl, rfl⟩, ?_, ?_⟩
    · simp only [step, hd, hr]
      exact lookup_set_same _ _ _ _ hd
    · simp only [step, hd, hr]
      by_cases hself : dst = src
      · subst hself
        rw [lookup_set_same _ _ _ _ hd]
        rfl
      · rw [lookup_set_other _ _ _ _ hself]
        exact hr
    · simp only [step, hd, hr]

/-- A client copies the success `make_ok("123456")`: the copy holds the handle of the one
cell and the source is as before. -/
theorem copy_shares_payload_witness :
    (exec id [Op.make_ok "123456"] : State String String).vars[0]?
        = some ⟨some 0, none, some true⟩
    ∧ (step id (exec id [Op.make_ok "123456"] : State String String) (.ctor_copy 0)).vars[0]?
        = some ⟨some 0, none, some true⟩
    ∧ (step id (exec id [Op.make_ok "123456"] : State String String)
        (.ctor_copy 0)).heap.cells
        = (exec id [Op.make_ok "123456"] : State String String).heap.cells :=
  ⟨rfl,
    (copy_shares_payload id (exec id [Op.make_ok "123456"] : State String String) 0 _ rfl).2.1,
    (copy_shares_payload id (exec id [Op.make_ok "123456"] : State String String) 0 _
      rfl).2.2.1⟩

/-! ## Default failure and in-place construction -/

/-- C13: `make_err()` yields a failure (`is_err()` true, `is_ok()` false) whose `error()` is
present and equals the value-initialised `E`; for `E = Error` that is the error with code
`0`, empty message and no annotation, and `unwrap_err().format()` is
`"Error Code: 0, Error Message: "`. -/
theorem make_err_default_observations :
    (∀ (A E : Type) [ValueInit E],
      (Result.make_err_default : Result A E).is_err = true
      ∧ (Result.make_err_default : Result A E).is_ok = false
      ∧ (Result.make_err_default : Result A E).error = some (ValueInit.value_init : E)
      ∧ (Result.make_err_default : Result A E).unwrap_err = .ok (ValueInit.value_init : E))
    ∧ (∀ (A : Type),
      (Result.make_err_default : Result A Error).error = some ⟨0, "", none⟩
      ∧ (Result.make_err_default : Result A Error).unwrap_err.map Error.format
          = .ok "Error Code: 0, Error Message: ") := by
  refine ⟨fun A E _ => ⟨rfl, rfl, rfl, rfl⟩, fun A => ⟨rfl, ?_⟩⟩
  show Except.ok (Error.format ⟨0, "", none⟩) = Except.ok "Error Code: 0, Error Message: "
  exact congrArg Except.ok (by decide)

/-- The text `string_fill count ch` is `count` copies of `ch`. -/
theorem string_fill_data (count : Nat) (ch : Char) :
    (string_fill count ch).data = List.replicate count ch := by
  induction count with
  | zero => rfl
  | succ n ih =>
    simp only [string_fill, String.push, ih]
    exact (List.replicate_succ' n ch).symm

/-- C14: the in-place factory `make_ok(args...)` yields a success whose payload is the
value the payload type constructs from `args`; for a `std::string` payload, every count
`n` and character `c`, `make_ok(n, c)` is a success and `ok()` holds the text of exactly
`n` copies of `c`; `make_ok(6, 'a')` gives `"aaaaaa"`. -/
theorem make_ok_in_place :
    (∀ (A E Args : Type) (construct : Args → A) (h : Heap A) (args : Args),
      (Result.make_ok_args construct h args : Heap A × Result A E).2.is_ok = true
      ∧ (Result.make_ok_args construct h args : Heap A × Result A E).2.ok
          (Result.make_ok_args construct h args : Heap A × Result A E).1
          = .ok (some (construct args)))
    ∧ (∀ (E : Type) (h : Heap String) (n : Nat) (c : Char),
      (Result.make_ok_args construct_string h (n, c) : Heap String × Result String E).2.is_ok
        = true
      ∧ (Result.make_ok_args construct_string h (n, c) : Heap String × Result String E).2.ok
          (Result.make_ok_args construct_string h (n, c) : Heap String × Result String E).1
          = .ok (some (String.mk (List.replicate n c)))
      ∧ (String.mk (List.replicate n c)).length = n)
    ∧ (Result.make_ok_args construct_string ⟨[]⟩ (6, 'a')
        : Heap String × Result String Error).2.ok
        (Result.make_ok_args construct_string ⟨[]⟩ (6, 'a')
          : Heap String × Result String Error).1 = .ok (some "aaaaaa") := by
  have key : ∀ (A E Args : Type) (construct : Args → A) (h : Heap A) (args : Args),
      (Result.make_ok_args construct h args : Heap A × Result A E).2.ok
          (Result.make_ok_args construct h args : Heap A × Result A E).1
          = .ok (some (construct args)) := by
    intro A E Args construct h args
    simp only [Result.make_ok_args, Result.ctor_body, Result.ok]
    rw [deref_make_shared]
    rfl
  refine ⟨fun A E Args construct h args => ⟨rfl, key A E Args construct h args⟩, ?_, ?_⟩
  · intro E h n c
    refine ⟨rfl, ?_, by simp [String.length]⟩
    rw [key String E _ construct_string h (n, c)]
    exact congrArg (fun text => Except.ok (some text)) (String.ext (string_fill_data n c))
  · rfl

/-! ## Setters and the constructor of `Error` -/

/-- The conversion keeps a code that is already in the range of `uint32_t`. -/
theorem static_cast_of_in_range (c : Nat) (hc : c < 4294967296) :
    static_cast_ErrorCode (c : Int) = c := by
  unfold static_cast_ErrorCode
  rw [Int.emod_eq_of_lt (by omega) (by omega)]
  exact Int.toNat_ofNat c

/-- C16: each fluent setter of `Error` changes exactly its own field and returns the
updated receiver, so the chain `e.error_code(c).error_message(m).optional_message(o)`
equals `Error(c, m, o)`; `c` is a value of `ErrorCode` (`uint32_t`). -/
theorem setters_frame (e : Error) (c : ErrorCode) (m : String) (o : Option String)
    (hc : c < 4294967296) :
    ((e.set_error_code c).error_code = c
      ∧ (e.set_error_code c).error_message = e.error_message
      ∧ (e.set_error_code c).optional_message = e.optional_message)
    ∧ ((e.set_error_message m).error_message = m
      ∧ (e.set_error_message m).error_code = e.error_code
      ∧ (e.set_error_message m).optional_message = e.optional_message)
    ∧ ((e.set_optional_message o).optional_message = o
      ∧ (e.set_optional_message o).error_code = e.error_code
      ∧ (e.set_optional_message o).error_message = e.error_message)
    ∧ ((e.set_error_code c).set_error_message m).set_optional_message o
        = Error.ctor (c : Int) m o := by
  refine ⟨⟨rfl, rfl, rfl⟩, ⟨rfl, rfl, rfl⟩, ⟨rfl, rfl, rfl⟩, ?_⟩
  simp only [Error.set_error_code, Error.set_error_message, Error.set_optional_message,
    Error.ctor, static_cast_of_in_range c hc]

/-- The chain of the three setters on a default `Error` builds the second error of
`main.cpp`. -/
theorem setters_frame_witness :
    (10002 : Nat) < 4294967296
    ∧ ((Error.ctor_default.set_error_code 10002).set_error_message
        "An Error Message!").set_optional_message (some "Opt!")
        = Error.ctor 10002 "An Error Message!" (some "Opt!") :=
  ⟨by decide,
    (setters_frame Error.ctor_default 10002 "An Error Message!" (some "Opt!")
      (by decide)).2.2.2⟩

/-- C17: the `Error` constructor normalises the code to `uint32_t`: for every integer code
`c`, `Error(c, m, a).error_code()` is `c mod 2^32`, lies in `[0, 2^32)` and equals `c`
when `0 <= c < 2^32`; `error_message()` and `optional_message()` return the message and
annotation passed in. -/
theorem ctor_normalizes_code (c : Int) (m : String) (a : Option String) :
    ((Error.ctor c m a).error_code : Int) = c % 4294967296
    ∧ (Error.ctor c m a).error_code < 4294967296
    ∧ (0 ≤ c → c < 4294967296 → ((Error.ctor c m a).error_code : Int) = c)
    ∧ (Error.ctor c m a).error_message = m
    ∧ (Error.ctor c m a).optional_message = a := by
  have hnonneg : 0 ≤ c % 4294967296 := Int.emod_nonneg c (by decide)
  have hlt : c % 4294967296 < 4294967296 := Int.emod_lt_of_pos c (by decide)
  have hcast : ((Error.ctor c m a).error_code : Int) = c % 4294967296 :=
    Int.toNat_of_nonneg hnonneg
  refine ⟨hcast, ?_, ?_, rfl, rfl⟩
  · have hbound : ((Error.ctor c m a).error_code : Int) < 4294967296 := by
      rw [hcast]
      exact hlt
    exact_mod_cast hbound
  · intro h0 h1
    rw [hcast]
    exact Int.emod_eq_of_lt h0 h1

/-- The enumerator `NewErrorCode::NewOne = 10002` is stored as `10002`, and `-1` wraps to
`2^32 - 1`. -/
theorem ctor_normalizes_code_witness :
    (0 : Int) ≤ 10002 ∧ (10002 : Int) < 4294967296
    ∧ ((Error.ctor 10002 "An Error Message!" (some "Opt!")).error_code : Int) = 10002
    ∧ ((Error.ctor (-1) "m" none).error_code : Int) = (-1) % 4294967296 :=
  ⟨by decide, by decide,
    (ctor_normalizes_code 10002 "An Error Message!" (some "Opt!")).2.2.1 (by decide)
      (by decide),
    (ctor_normalizes_code (-1) "m" none).1⟩

/-! ## Moves -/

/-- C19: moving out of a success `Result` (move construction, move assignment) transfers
status, payload handle and error to the destination, which observes what the source
observed before the move (same `is_ok()`, same `shared_ok()` handle); the moved-from
source still reports `is_ok() == true` and its `shared_ok()` is the empty handle.  In a
client, the destination is the new (or assigned) object and the source is left in place. -/
theorem move_transfers {A E : Type} [ValueInit A] [ValueInit E] (residue : E → E)
    (r : Result A E) (hok : r.is_ok = true) :
    ((Result.ctor_move residue r).1.result_status = r.result_status
      ∧ (Result.ctor_move residue r).1.is_ok = r.is_ok
      ∧ (Result.ctor_move residue r).1.shared_ok = r.shared_ok
      ∧ (Result.ctor_move residue r).1.error = r.error
      ∧ (Result.ctor_move residue r).2.is_ok = true
      ∧ (Result.ctor_move residue r).2.shared_ok = none)
    ∧ (∀ d : Result A E,
      (Result.assign_move residue d r).1.result_status = r.result_status
      ∧ (Result.assign_move residue d r).1.is_ok = r.is_ok
      ∧ (Result.assign_move residue d r).1.shared_ok = r.shared_ok
      ∧ (Result.assign_move residue d r).1.error = r.error
      ∧ (Result.assign_move residue d r).2.is_ok = true
      ∧ (Result.assign_move residue d r).2.shared_ok = none)
    ∧ (∀ (s : State A E) (src : Nat), s.vars[src]? = some r →
      (step residue s (.ctor_move src)).vars[s.vars.length]?
          = some (Result.ctor_move residue r).1
      ∧ (step residue s (.ctor_move src)).vars[src]? = some (Result.ctor_move residue r).2
      ∧ ∀ (dst : Nat) (d : Result A E), s.vars[dst]? = some d → dst ≠ src →
        (step residue s (.assign_move dst src)).vars[dst]?
            = some (Result.assign_move residue d r).1
        ∧ (step residue s (.assign_move dst src)).vars[src]?
            = some (Result.assign_move residue d r).2) := by
  have hstatus : r.m_is_ok = some true := by
    rcases r with ⟨b, e, st⟩
    rcases st with _ | _ | _ <;> simp_all [Result.is_ok]
  have hleft : ∀ x : Result A E, x.m_body = none → x.m_is_ok = r.m_is_ok →
      x.is_ok = true ∧ x.shared_ok = none := by
    intro x hb hs
    simp [Result.is_ok, Result.shared_ok, hb, hs, hstatus]
  refine ⟨⟨rfl, rfl, rfl, rfl, hleft _ rfl rfl⟩, fun d => ⟨rfl, rfl, rfl, rfl, hleft _ rfl rfl⟩,
    ?_⟩
  intro s src hr
  refine ⟨?_, ?_, ?_⟩
  · simp only [step, hr]
    have hlen : s.vars.length = (s.vars.set src (Result.ctor_move residue r).2).length := by
      simp
    rw [hlen]
    exact lookup_push _ _
  · simp only [step, hr]
    exact lookup_push_old _ _ _ _ (lookup_set_same _ _ _ _ hr)
  · intro dst d hd hne
    simp only [step, hd, hr, hne, if_false]
    refine ⟨?_, ?_⟩
    · refine lookup_set_same _ _ d _ ?_
      rw [lookup_set_other _ _ _ _ (Ne.symm hne)]
      exact hd
    · rw [lookup_set_other _ _ _ _ hne]
      exact lookup_set_same _ _ _ _ hr

/-- A client moves `make_ok(12138)` into a new object: the new object holds the handle of
the cell, the source still reports success and its handle is empty. -/
theorem move_transfers_witness :
    (⟨some 0, none, some true⟩ : Result Int String).is_ok = true
    ∧ (Result.ctor_move id (⟨some 0, none, some true⟩ : Result Int String)).1.shared_ok
        = some 0
    ∧ (Result.ctor_move id (⟨some 0, none, some true⟩ : Result Int String)).2.is_ok = true
    ∧ (Result.ctor_move id (⟨some 0, none, some true⟩ : Result Int String)).2.shared_ok
        = none
    ∧ (exec id [Op.make_ok 12138, Op.ctor_move 0] : State Int String).vars
        = [⟨none, none, some true⟩, ⟨some 0, none, some true⟩] :=
  ⟨rfl,
    (move_transfers id (⟨some 0, none, some true⟩ : Result Int String) rfl).1.2.2.1,
    (move_transfers id (⟨some 0, none, some true⟩ : Result Int String) rfl).1.2.2.2.2.1,
    (move_transfers id (⟨some 0, none, some true⟩ : Result Int String) rfl).1.2.2.2.2.2,
    rfl⟩

/-! ## The text of `format()` -/

/-- Reading a run of digits extended by one digit. -/
theorem decimal_value_snoc (l : List Char) (ch : Char) :
    decimal_value (l ++ [ch]) = 10 * decimal_value l + (ch.toNat - 48) := by
  simp [decimal_value, List.foldl_append]

/-- The character of a decimal digit denotes the digit and is not a comma. -/
theorem digitChar_spec :
    ∀ k, k < 10 → (Nat.digitChar k).toNat - 48 = k ∧ Nat.digitChar k ≠ ',' := by
  decide

/-- With enough fuel the digit loop puts in front of `ds` a comma-free run that reads
back as `n`. -/
theorem toDigitsCore_spec (fuel : Nat) : ∀ (n : Nat) (ds : List Char), n < fuel →
    ∃ l, Nat.toDigitsCore 10 fuel n ds = l ++ ds ∧ decimal_value l = n
      ∧ ∀ ch ∈ l, ch ≠ ',' := by
  induction fuel with
  | zero => intro n ds h; omega
  | succ fuel ih =>
    intro n ds h
    have hd := digitChar_spec (n % 10) (Nat.mod_lt _ (by decide))
    by_cases hz : n / 10 = 0
    · refine ⟨[Nat.digitChar (n % 10)], ?_, ?_, ?_⟩
      · simp [Nat.toDigitsCore, hz]
      · have hv := decimal_value_snoc [] (Nat.digitChar (n % 10))
        simp only [List.nil_append] at hv
        rw [hv, hd.1]
        simp only [decimal_value, List.foldl_nil]
        omega
      · intro ch hch
        rw [List.mem_singleton.mp hch]
        exact hd.2
    · obtain ⟨l, hl, hv, hc⟩ := ih (n / 10) (Nat.digitChar (n % 10) :: ds) (by omega)
      refine ⟨l ++ [Nat.digitChar (n % 10)], ?_, ?_, ?_⟩
      · simp [Nat.toDigitsCore, hz, hl]
      · rw [decimal_value_snoc, hv, hd.1]
        omega
      · intro ch hch
        rcases List.mem_append.mp hch with hmem | hmem
        · exact hc ch hmem
        · rw [List.mem_singleton.mp hmem]
          exact hd.2

/-- The decimal text of `n` reads back as `n` and has no comma. -/
theorem repr_spec (n : Nat) :
    decimal_value (Nat.repr n).data = n ∧ ∀ ch ∈ (Nat.repr n).data, ch ≠ ',' := by
  obtain ⟨l, hl, hv, hc⟩ := toDigitsCore_spec (n + 1) n [] (Nat.lt_succ_self n)
  have hdata : (Nat.repr n).data = l := by
    simp only [Nat.repr, Nat.toDigits, List.asString, hl, List.append_nil]
  rw [hdata]
  exact ⟨hv, hc⟩

/-- Two texts that agree and are comma-free up to their first comma agree up to it. -/
theorem split_at_comma : ∀ (l1 l2 r1 r2 : List Char), (∀ ch ∈ l1, ch ≠ ',') →
    (∀ ch ∈ l2, ch ≠ ',') → l1 ++ ',' :: r1 = l2 ++ ',' :: r2 → l1 = l2 := by
  intro l1
  induction l1 with
  | nil =>
    intro l2 r1 r2 _ h2 heq
    cases l2 with
    | nil => rfl
    | cons y l2 =>
      simp only [List.nil_append, List.cons_append, List.cons.injEq] at heq
      exact absurd heq.1.symm (h2 y (List.mem_cons_self _ _))
  | cons x l1 ih =>
    intro l2 r1 r2 h1 h2 heq
    cases l2 with
    | nil =>
      simp only [List.nil_append, List.cons_append, List.cons.injEq] at heq
      exact absurd heq.1 (h1 x (List.mem_cons_self _ _))
    | cons y l2 =>
      simp only [List.cons_append, List.cons.injEq] at heq
      rw [heq.1, ih l2 r1 r2 (fun ch hch => h1 ch (List.mem_cons_of_mem _ hch))
        (fun ch hch => h2 ch (List.mem_cons_of_mem _ hch)) heq.2]

/-- The characters `format()` produces: the header, the digits of the code, the message
and the annotation part. -/
theorem format_data (e : Error) :
    e.format.data = "Error Code: ".data ++ ((Nat.repr e.m_error_code).data
      ++ (',' :: (" Error Message: ".data ++ (e.m_error_message.data
        ++ (match e.m_optional_message with
            | some s => optional_suffix.data ++ s.data
            | none => []))))) := by
  rcases e with ⟨c, m, a⟩
  cases a with
  | none => simp [Error.format, String.data_append]
  | some s => simp [Error.format, String.data_append, optional_suffix]

/-- C18: `format()` determines the error code: two errors (any messages and annotations)
with the same `format()` have the same `error_code()`. -/
theorem format_determines_code (e1 e2 : Error) (h : e1.format = e2.format) :
    e1.error_code = e2.error_code := by
  have hdata := congrArg String.data h
  rw [format_data e1, format_data e2] at hdata
  have hdigits := split_at_comma _ _ _ _ (repr_spec e1.m_error_code).2
    (repr_spec e2.m_error_code).2 (List.append_cancel_left hdata)
  have hvalue := congrArg decimal_value hdigits
  rw [(repr_spec e1.m_error_code).1, (repr_spec e2.m_error_code).1] at hvalue
  exact hvalue

/-- Two different errors with the same text: the annotation of the second is part of the
message of the first; their codes agree. -/
theorem format_determines_code_witness :
    (Error.ctor 7 "m, Optional Message:x" none).format = (Error.ctor 7 "m" (some "x")).format
    ∧ (Error.ctor 7 "m, Optional Message:x" none).error_code
        = (Error.ctor 7 "m" (some "x")).error_code :=
  ⟨by decide,
    format_determines_code (Error.ctor 7 "m, Optional Message:x" none)
      (Error.ctor 7 "m" (some "x")) (by decide)⟩

/-- A pattern that starts with a comma does not start inside a comma-free text. -/
theorem infix_skip_comma_free (rest : List Char) : ∀ (l tail : List Char),
    (∀ ch ∈ l, ch ≠ ',') → List.IsInfix (',' :: rest) (l ++ tail) →
    List.IsInfix (',' :: rest) tail := by
  intro l
  induction l with
  | nil => intro tail _ h; exact h
  | cons x l ih =>
    intro tail hfree h
    rw [List.cons_append, List.infix_cons_iff] at h
    rcases h with hpre | hin
    · rw [List.cons_prefix_cons] at hpre
      exact absurd hpre.1.symm (hfree x (List.mem_cons_self _ _))
    · exact ih tail (fun ch hch => hfree ch (List.mem_cons_of_mem _ hch)) hin

/-- C15 (as amended): the literal `", Optional Message:"` occurs in `e.format()` if and
only if an annotation was supplied to `e` or the message text of `e` itself contains the
literal. -/
theorem suffix_occurs_iff (e : Error) :
    occurs_in optional_suffix e.format
      ↔ (e.optional_message.isSome = true ∨ occurs_in optional_suffix e.error_message) := by
  rcases e with ⟨c, m, a⟩
  simp only [occurs_in, Error.optional_message, Error.error_message]
  rw [format_data]
  constructor
  · intro h
    cases a with
    | some s => exact Or.inl rfl
    | none =>
      right
      simp only [List.append_nil] at h
      have h1 := infix_skip_comma_free _ _ _ (by decide) h
      have h2 := infix_skip_comma_free _ _ _ (repr_spec c).2 h1
      rw [List.infix_cons_iff] at h2
      rcases h2 with hpre | hin
      · exfalso
        have hpre2 : List.IsPrefix optional_suffix.data
            (',' :: ' ' :: 'E' :: ("rror Message: ".data ++ m.data)) := hpre
        have hpat : optional_suffix.data = ',' :: ' ' :: 'O' :: "ptional Message:".data := rfl
        rw [hpat, List.cons_prefix_cons, List.cons_prefix_cons, List.cons_prefix_cons]
          at hpre2
        exact absurd hpre2.2.2.1 (by decide)
      · exact infix_skip_comma_free _ _ _ (by decide) hin
  · intro h
    rcases h with hsome | hmsg
    · cases a with
      | none => cases hsome
      | some s =>
        exact ⟨"Error Code: ".data ++ ((Nat.repr c).data
          ++ (',' :: (" Error Message: ".data ++ m.data))), s.data, by simp⟩
    · obtain ⟨front, back, hfb⟩ := hmsg
      refine ⟨"Error Code: ".data ++ ((Nat.repr c).data
          ++ (',' :: (" Error Message: ".data ++ front))),
        back ++ (match a with
            | some s => optional_suffix.data ++ s.data
            | none => []), ?_⟩
      rw [← hfb]
      simp

/-- C15 (as stated) fails: `Error(1, "x, Optional Message:y")` has no annotation and its
`format()` contains the literal `", Optional Message:"`. -/
theorem suffix_occurs_without_annotation :
    occurs_in optional_suffix (Error.ctor 1 "x, Optional Message:y" none).format
    ∧ (Error.ctor 1 "x, Optional Message:y" none).optional_message = none
    ∧ ¬ (∀ e : Error,
        occurs_in optional_suffix e.format ↔ e.optional_message.isSome = true) := by
  refine ⟨by decide, rfl, fun hall => ?_⟩
  have hsome := (hall (Error.ctor 1 "x, Optional Message:y" none)).mp (by decide)
  cases hsome

end ResultCpp
